import Mathlib

set_option linter.unusedVariables false

/-!
# Verification of the triage-pipeline specification against the source

This file shallowly embeds the safety/coaching triage pipeline of the
"Jordan" small-talk practice app and settles the spec claims against it.

Source files embedded:
* `src/pages/constants.ts` (the revision declaring the two-tier crisis
  keyword lists, `part_012`): keyword tables and the severity order.
* `src/pages/guardrails.ts`: `analyzeDistress`, `detectTriggers`,
  `prioritize`, `moderateJordanResponse`.
* `supabase/functions/analyze-crisis-context` (`part_001`): the crisis
  context classifier wrapper's failure routing.
* `supabase/functions/moderate-response/index.ts`: the response
  moderator's failure routing.
* `src/pages/coachingEngine.ts`: `detectDistressLevel`,
  `hasDescendingTrajectory`, `generateCoachTip` and its helper checks.

JavaScript strings are modelled as Lean `String`; `toLowerCase` and
`includes` are modelled character-exactly for the ASCII texts the tables
use.  The five PII regular expressions tested by `detectTriggers` are
abstracted as an arbitrary predicate `piiTest : String → Bool`: no claim
depends on which texts they match.  External network calls are modelled
by an explicit event describing the call's outcome, mirroring exactly the
branch structure of the source handlers.
-/

/-! ## String primitives (JS `toLowerCase`, `includes`, `trim`, `split`) -/

/-- ASCII lower-casing of one character, as JS `toLowerCase` acts on the
ASCII range (all keyword tables are ASCII). -/
def lowerChar (c : Char) : Char :=
  if 65 ≤ c.toNat ∧ c.toNat ≤ 90 then Char.ofNat (c.toNat + 32) else c

/-- JS `String.prototype.toLowerCase` on ASCII text. -/
def lowerStr (s : String) : String :=
  ⟨s.data.map lowerChar⟩

/-- `pat` is a prefix of `hay` (character lists). -/
def leadMatch : List Char → List Char → Bool
  | _, [] => true
  | [], _ :: _ => false
  | c :: cs, p :: ps => c == p && leadMatch cs ps

/-- `pat` occurs contiguously somewhere in `hay`. -/
def subMatch (pat : List Char) : List Char → Bool
  | [] => pat.isEmpty
  | c :: t => leadMatch (c :: t) pat || subMatch pat t

/-- JS `hay.includes(pat)`. -/
def strIncludes (hay pat : String) : Bool :=
  subMatch pat.data hay.data

/-- JS `\w` word characters `[A-Za-z0-9_]` (`Char.isAlpha`/`isDigit` are
exactly the ASCII classes). -/
def isWordChar (c : Char) : Bool :=
  c.isAlpha || c.isDigit || c == '_'

/-- JS `\s` whitespace for the ASCII texts involved. -/
def isSpaceChar (c : Char) : Bool :=
  c.isWhitespace

/-- JS `String.prototype.trim`. -/
def trimStr (s : String) : String :=
  ⟨((s.data.dropWhile isSpaceChar).reverse.dropWhile isSpaceChar).reverse⟩

/-- Counts maximal runs of non-whitespace characters;
`inWord` records whether the previous character was part of a run. -/
def countRunsAux (inWord : Bool) : List Char → Nat
  | [] => 0
  | c :: t =>
    if isSpaceChar c then countRunsAux false t
    else (if inWord then 0 else 1) + countRunsAux true t

/-- JS `s.trim().split(/\s+/).length`: the number of whitespace-separated
words, except that the empty (all-blank) string yields 1, because
`"".split(/\s+/)` is `[""]`. -/
def wordCountJS (s : String) : Nat :=
  let t := trimStr s
  if t.data.isEmpty then 1 else countRunsAux false t.data

/-- JS `array.slice(-n)`: the last `n` elements (all of them when the
list is shorter). -/
def sliceLast (n : Nat) (l : List α) : List α :=
  l.drop (l.length - n)

/-! ## Word-boundary regex scanners

The coaching engine tests several regexes of the restricted shapes
`\b(alt|…)\b`, `\b(alt|…)` and `\b(alt|…)\s+\w`.  Every alternative in
the source starts and ends with a `\w` character, so the `\b` assertions
reduce to "the neighbouring character, if any, is not a word character".
All uses are case-insensitive on text the callers pre-lower, so the
scanners below expect already-lowered text. -/

/-- `\b` holds before the match (the previous character, if any, is not a
word character; every pattern starts with a word character). -/
def boundaryBefore : Option Char → Bool
  | none => true
  | some c => !isWordChar c

/-- `\b` holds after the match (the next character, if any, is not a word
character; every pattern ends with a word character). -/
def boundaryAfterL : List Char → Bool
  | [] => true
  | c :: _ => !isWordChar c

/-- Scans `hay` position by position, keeping the previous character for
`\b` tests; `test prev rest` decides a match starting at `rest`. -/
def scanPos (test : Option Char → List Char → Bool) :
    Option Char → List Char → Bool
  | prev, hay =>
    test prev hay ||
      match hay with
      | [] => false
      | c :: t => scanPos test (some c) t

/-- `\balt\b` occurs in `hay` (both arguments already lowered). -/
def occursBounded (hay : List Char) (alt : List Char) : Bool :=
  scanPos
    (fun prev h =>
      boundaryBefore prev && leadMatch h alt && boundaryAfterL (h.drop alt.length))
    none hay

/-- `\balt` (leading boundary only) occurs in `hay`. -/
def occursBoundedLead (hay : List Char) (alt : List Char) : Bool :=
  scanPos (fun prev h => boundaryBefore prev && leadMatch h alt) none hay

/-- After a matched alternative: `\s+` then a `\w` character. -/
def wsThenWord : List Char → Bool
  | [] => false
  | c :: t =>
    isSpaceChar c &&
      match t.dropWhile isSpaceChar with
      | [] => false
      | d :: _ => isWordChar d

/-- `\b(alt|…)\b` test on a string, lowering the text (the `i` flag). -/
def testBoundedAny (text : String) (alts : List String) : Bool :=
  alts.any fun a => occursBounded (lowerStr text).data a.data

/-- `\b(alt|…)` test (leading boundary only), lowering the text. -/
def testBoundedLeadAny (text : String) (alts : List String) : Bool :=
  alts.any fun a => occursBoundedLead (lowerStr text).data a.data

/-- `\b(alt|…)\s+\w+` test, lowering the text. -/
def testIntroFollowedAny (text : String) (alts : List String) : Bool :=
  alts.any fun a =>
    scanPos
      (fun prev h =>
        boundaryBefore prev && leadMatch h a.data && wsThenWord (h.drop a.data.length))
      none (lowerStr text).data

/-! ## Pattern tables (`constants.ts`, revision with the tier lists) -/

/-- TIER 1: explicit, high-risk crisis keywords. -/
def TIER_1_CRISIS_KEYWORDS : List String :=
  ["suicide", "suicidal", "suicid", "kill myself", "end it all", "end my life",
   "off myself", "want to die", "wanna die", "ending my life",
   "self-harm", "self harm", "hurt myself", "cutting myself",
   "kms", "kys", "unalive", "unaliving",
   "better off dead", "should be dead", "deserve to die"]

/-- TIER 2: ambiguous distress signals. -/
def TIER_2_DISTRESS_KEYWORDS : List String :=
  ["hopeless", "no hope", "lost hope", "no point", "no reason to",
   "can\x27t keep going", "can\x27t go on", "give up", "giving up",
   "bye forever", "goodbye forever", "final goodbye", "last time",
   "won\x27t see me again", "this is it",
   "reason to stay", "inspiration to stay", "why I stay", "keep going",
   "reasons to live", "worth living",
   "no one will miss", "better without me", "won\x27t matter",
   "no one cares", "alone in this",
   "tired of living", "tired of trying", "don\x27t want to be here",
   "can\x27t handle this", "can\x27t take it", "done with everything",
   "falling apart", "breaking down", "escape this pain",
   "stories of hope", "stories of survival", "need help"]

/-- Legacy list: `[...TIER_1_CRISIS_KEYWORDS, ...TIER_2_DISTRESS_KEYWORDS]`. -/
def CRISIS_KEYWORDS : List String :=
  TIER_1_CRISIS_KEYWORDS ++ TIER_2_DISTRESS_KEYWORDS

def CONTROVERSIAL_KEYWORDS : List String :=
  ["politics", "religion", "trump", "biden", "abortion", "gun control",
   "immigration", "sex", "sexual"]

def INSULT_KEYWORDS : List String :=
  ["weird", "stupid", "dumb", "idiotic", "lame", "loser", "pathetic",
   "ridiculous", "absurd", "crazy for liking", "insane for liking",
   "nerdy", "geeky", "uncool"]

inductive Severity where
  | CRISIS
  | PII
  | CONTROVERSIAL
  | INSULT
  | COACHING
  | NONE
deriving DecidableEq, Repr, Fintype

/-- Total severity order, highest priority first. -/
def SEVERITY_ORDER : List Severity :=
  [.CRISIS, .PII, .CONTROVERSIAL, .INSULT, .COACHING, .NONE]

inductive DistressSeverity where
  | high
  | low
  | none
deriving DecidableEq, Repr

/-! ## `guardrails.ts`: distress analysis, trigger detection, prioritizer -/

structure Trigger where
  kind : Severity
  reason : String
deriving DecidableEq, Repr

structure DistressAnalysis where
  severity : DistressSeverity
  foundTier2 : Bool
  matchedKeywords : List String
deriving DecidableEq, Repr

/-- `analyzeDistress(text, tier2Count)`:
tier-1 scan returns `high` at the first match; otherwise tier-2 matches
are collected and `low` is returned only when `tier2Count + 1 >= 2`,
else `none` with the matches recorded.  `tier2Count` is an `Int` since
the JS parameter is an unconstrained number. -/
def analyzeDistress (text : String) (tier2Count : Int) : DistressAnalysis :=
  let lowerText := lowerStr text
  match TIER_1_CRISIS_KEYWORDS.find? (fun keyword => strIncludes lowerText keyword) with
  | some keyword => ⟨.high, false, [keyword]⟩
  | none =>
    let matched := TIER_2_DISTRESS_KEYWORDS.filter fun keyword => strIncludes lowerText keyword
    if matched.isEmpty then ⟨.none, false, []⟩
    else if 2 ≤ tier2Count + 1 then ⟨.low, true, matched⟩
    else ⟨.none, true, matched⟩

/-- `countTier2SignalsInHistory`: one count per user message containing a
tier-2 keyword. -/
def countTier2SignalsInHistory (history : List (String × String)) : Nat :=
  history.countP fun turn =>
    turn.1 == "user" &&
      TIER_2_DISTRESS_KEYWORDS.any fun keyword => strIncludes (lowerStr turn.2) keyword

/-- `detectTriggers(text)`.  `piiTest` abstracts the disjunction of the
five PII regular-expression tests on the raw text; every claim below is
proved for all `piiTest`. -/
def detectTriggers (piiTest : String → Bool) (text : String) : List Trigger :=
  let t := lowerStr text
  let hits : List Trigger :=
    (if CRISIS_KEYWORDS.any (fun k => strIncludes t k) then [⟨.CRISIS, "crisis"⟩] else []) ++
    (if piiTest text then [⟨.PII, "pii"⟩] else []) ++
    (if CONTROVERSIAL_KEYWORDS.any (fun k => strIncludes t k) then [⟨.CONTROVERSIAL, "controversial"⟩] else []) ++
    (if INSULT_KEYWORDS.any (fun k => strIncludes t k) then [⟨.INSULT, "insult"⟩] else [])
  if hits.isEmpty then [⟨.NONE, "none"⟩] else hits

/-- Loop body of `prioritize`: keep `best` unless `trig` has a strictly
smaller index in `SEVERITY_ORDER`. -/
def pickBest (best trig : Trigger) : Trigger :=
  if SEVERITY_ORDER.indexOf trig.kind < SEVERITY_ORDER.indexOf best.kind then trig else best

/-- `prioritize(triggers)`: `NONE` for the empty list, otherwise the
fold of the comparison loop starting from `triggers[0]`. -/
def prioritize (triggers : List Trigger) : Trigger :=
  match triggers with
  | [] => ⟨.NONE, "none"⟩
  | t0 :: _ => triggers.foldl pickBest t0

/-- `shouldTerminateSession(kind)`. -/
def shouldTerminateSession (kind : Severity) : Bool :=
  kind == .CRISIS

/-- `Index.tsx` `send`, step 2: the deterministic crisis branch is taken
(before any language-model call) exactly when the prioritized trigger
kind is `CRISIS`. -/
def sendTakesCrisisBranch (piiTest : String → Bool) (userText : String) : Bool :=
  (prioritize (detectTriggers piiTest userText)).kind == .CRISIS

/-! ## `analyze-crisis-context` edge function: failure routing (`part_001`)

The handler wraps one `fetch` to the model gateway (bounded by
`AbortSignal.timeout(10000)`; a timeout rejects the promise and lands in
the outer `catch`).  The call's outcome is modelled as an explicit event;
the branch structure and the literal fallback verdicts are taken from the
source. -/

structure CrisisVerdict where
  severity : String
  reason : String
deriving DecidableEq, Repr

/-- Outcome of the handler's external interaction. -/
inductive GatewayEvent where
  /-- any exception reaching the outer `catch`: network failure, the
  10s timeout abort, a missing API key, or an unreadable request body -/
  | requestError
  /-- the gateway answered with `response.ok` false -/
  | badStatus
  /-- the gateway answered 200 but the model reply had no parseable JSON -/
  | unparseableReply
  /-- the model reply parsed to `{ severity, reason }` -/
  | parsedReply (severity : String) (reason : String)
deriving DecidableEq, Repr

/-- The verdict the `analyze-crisis-context` handler responds with, per
source branch. -/
def analyzeCrisisContextServe : GatewayEvent → CrisisVerdict
  | .requestError => ⟨"crisis", "Analysis error, defaulting to safe"⟩
  | .badStatus => ⟨"crisis", "LLM analysis failed, defaulting to safe"⟩
  | .unparseableReply => ⟨"crisis", "Failed to parse LLM response"⟩
  | .parsedReply severity reason => ⟨severity, reason⟩

/-! ## Response moderation: `moderate-response` handler and
`moderateJordanResponse` (`guardrails.ts`) -/

/-- Outcome of the moderation handler's AI-gateway call. -/
inductive ModGatewayEvent where
  /-- any exception reaching the handler's `catch`: network error, the
  25s timeout abort, a non-ok gateway status (re-thrown), missing key -/
  | aiError
  /-- gateway 200 but the content was not parseable JSON -/
  | unparseable
  /-- parsed `{ safe, reason }` -/
  | parsed (safe : Bool) (reason : String)
deriving DecidableEq, Repr

/-- The `{ safe, reason }` body the `moderate-response` handler responds
with (always HTTP 200, so the client's `invoke` sees it as data). -/
def moderateResponseServe : ModGatewayEvent → Bool × String
  | .aiError => (false, "Moderation system error - blocked for safety")
  | .unparseable => (false, "Moderation parsing error")
  | .parsed safe reason => (safe, reason)

/-- A row inserted into `moderation_logs`. -/
structure ModerationLogEntry where
  session_id : String
  original_response : String
  block_reason : String
deriving DecidableEq, Repr

/-- Result of `moderateJordanResponse`, together with the
`moderation_logs` inserts it performs. -/
structure ModerationOutcome where
  safe : Bool
  reason : Option String
  finalResponse : String
  logInserts : List ModerationLogEntry
deriving DecidableEq, Repr

/-- Outcome of `supabase.functions.invoke("moderate-response", …)` as
seen by the client. -/
inductive InvokeOutcome where
  /-- the invoke returned an `error` (re-thrown) or itself threw -/
  | invokeError
  /-- the invoke returned `data = { safe, reason }` -/
  | response (safe : Bool) (reason : Option String)
deriving DecidableEq, Repr

/-- `moderateJordanResponse(response, context, sessionDbId)` with the
delegated call's outcome made explicit.  On `data.safe` false the
blocked original is logged (only when `sessionDbId` is non-null) and the
fixed fallback line is returned; on any thrown error the catch block
returns the fail-safe result without logging. -/
def moderateJordanResponse (response context : String)
    (sessionDbId : Option String) : InvokeOutcome → ModerationOutcome
  | .invokeError =>
    ⟨false, some "Moderation system error",
     "Sorry, I\x27m having technical difficulties. Let\x27s try again!", []⟩
  | .response safe reason =>
    if safe then ⟨true, none, response, []⟩
    else
      ⟨false, reason,
       "I\x27m having trouble thinking of what to say. Can you ask me something else?",
       match sessionDbId with
       | some sid => [⟨sid, response, reason.getD "Unknown reason"⟩]
       | none => []⟩

/-! ## Spec-modelled Turn Orchestrator (crisis integration)

Modelled from the spec: the Turn Orchestrator revision that consults the
Crisis Context Classifier and drives the `CrisisIntervention` state is
absent from `src/` — the snapshot's `Index.tsx` revisions still use the
deterministic keyword crisis branch, while its callees and artifacts are
present without a caller: the `analyze-crisis-context` edge function
(`part_001`), the `CrisisModal` component with choices
`support_needed`/`false_positive`/`restart` (`part_016`), and the
`sessions.crisis_detected`/`crisis_user_selection` columns (migration
`20251125040043`).  `processTurn` below follows §4.3/§4.4 of the spec,
reusing the source-embedded `detectTriggers`, `prioritize` and
`analyzeDistress` for the deterministic parts. -/

inductive Role where
  | user
  | assistant
deriving DecidableEq, Repr

structure Turn where
  role : Role
  content : String
  coachTip : Option String
deriving DecidableEq, Repr

inductive Lifecycle where
  | NotStarted
  | Active
  | CrisisIntervention
  | Ended
deriving DecidableEq, Repr

structure OrchestratorState where
  lifecycle : Lifecycle
  turns : List Turn
  tier2Count : Nat
  crisisDetected : Bool
  sessionEnded : Bool
deriving DecidableEq, Repr

/-- A distress signal (tier-1 or tier-2) detected in the message, per
`analyzeDistress` (the source's `detectDistressSignals` predicate). -/
def distressSignalDetected (text : String) (tier2Count : Int) : Bool :=
  let r := analyzeDistress text tier2Count
  r.severity == .high || r.foundTier2

/-- Modelled from the spec: §4.3 of the missing classifier-integrated
orchestrator — the classifier is invoked whenever the prioritized
severity is `CRISIS` or any distress signal was detected. -/
def classifierGate (piiTest : String → Bool) (st : OrchestratorState)
    (text : String) : Bool :=
  (prioritize (detectTriggers piiTest text)).kind == .CRISIS
    || distressSignalDetected text (st.tier2Count : Int)

/-- Modelled from the spec: §4.4 turn processing of the crisis-integrated
Turn Orchestrator, which is absent from `src/`.  Returns the new state
and whether the classifier was invoked.  `verdict` is what the
classifier returns if invoked; `reply` is the (moderated) language-model
reply used on the non-crisis path.  On a `crisis` verdict the user
message is recorded without any agent reply, the lifecycle moves to
`CrisisIntervention`, `crisis_detected` is persisted and the session is
marked ended. -/
def processTurn (piiTest : String → Bool) (st : OrchestratorState)
    (text : String) (verdict : CrisisVerdict) (reply : String) :
    OrchestratorState × Bool :=
  if st.lifecycle ≠ Lifecycle.Active then (st, false)
  else
    let invoked := classifierGate piiTest st text
    if invoked && verdict.severity == "crisis" then
      ({ st with
          turns := st.turns ++ [⟨.user, text, none⟩],
          lifecycle := .CrisisIntervention,
          crisisDetected := true,
          sessionEnded := true }, invoked)
    else
      ({ st with
          turns := st.turns ++ [⟨.user, text, none⟩, ⟨.assistant, reply, none⟩],
          tier2Count :=
            st.tier2Count +
              (if (analyzeDistress text (st.tier2Count : Int)).foundTier2 then 1 else 0) },
        invoked)

/-! ## `coachingEngine.ts`

`generateCoachTip` is embedded as the three suppression guards followed
by `coachTipLadder`, the priority ladder of candidate tips combined with
`<|>` so that the first source `return` wins.  The tip strings are bound
to named constants; every regex of the source is modelled by one of the
scanners above, as noted at each definition. -/

def tipPII : String :=
  "Keep personal info private in casual conversations. Use general details instead of specific contact info."

def tipControversial : String :=
  "Topics like politics or religion can derail small talk. Try lighter subjects to build rapport first."

def tipCrisisAdjacent : String :=
  "That\x27s a heavy or personal topic for casual small talk. Try pivoting to something lighter like hobbies, the scene, or asking Jordan a question."

def tipSelfIntro : String :=
  "Tip: Jordan shared their name — dropping yours in (\x27I\x27m [name]\x27) is an easy way to make the chat feel more personal."

def tipAnswerChance : String :=
  "Jordan asked you something — that\x27s a great chance to share a bit about yourself."

def tipAnswerFirst : String :=
  "Tip: answering Jordan\x27s question before asking yours helps the conversation feel balanced."

def tipGreetQuestion : String :=
  "Tip: Jordan asked you something — this is a great opening to share a bit about yourself!"

def tipGreetAdd : String :=
  "Tip: after \x27hey\x27, try adding a thought or question to get the conversation rolling."

def tipRepeatedQuestion : String :=
  "Tip: Jordan touched on this earlier — try building on what they said, like \x27you mentioned X — tell me more about that!\x27"

def tipActiveListening : String :=
  "Tip: a quick \x27oh cool!\x27 or \x27nice!\x27 before your question can make the conversation feel warmer."

def tipBuildOnShare : String :=
  "Tip: Jordan just shared something — a follow-up like \x27how\x27d you get into that?\x27 keeps the convo going."

def tipDeflection : String :=
  "Good instinct to ask back! Try adding your own thought first — \x27I usually go with X. You?\x27 makes it more of an exchange."

def tipExitFarewell : String :=
  "Tip: sounds like Jordan\x27s wrapping up — a friendly \x27nice talking to you!\x27 or \x27take care!\x27 lands well here."

def tipExitWind : String :=
  "Tip: Jordan\x27s winding down — matching their energy with a casual goodbye wraps things up nicely."

def tipStuckRedirect : String :=
  "Feeling stuck? Try: \x27Hmm, I haven\x27t thought about that — what about you?\x27 It\x27s okay to redirect."

def tipStuckCurious : String :=
  "Not sure what to say? Ask Jordan to share more: \x27How\x27d you get into that?\x27 shows genuine curiosity."

def tipInterview : String :=
  "Nice — you\x27re curious! Mixing in something about yourself can make it feel more like a two-way chat."

def tipReciprocity : String :=
  "Tip: tossing a question back to Jordan — like \x27what about you?\x27 — keeps the energy flowing both ways."

def tipMilestone3 : String :=
  "Tip: people love being asked about themselves — a simple \x27what about you?\x27 can open things up."

def tipMilestone5 : String :=
  "You\x27re getting into a rhythm! Notice how open-ended questions (\x27What do you think about...?\x27) invite more interesting answers than yes/no questions."

def tipMilestone8 : String :=
  "Conversations often wrap up around now. Watch for exit cues like \x27I should get going\x27 — they\x27re invitations to say goodbye gracefully."

def tipBrevity : String :=
  "Tip: adding a quick thought or follow-up question — like \x27Nice! What got you into that?\x27 — can help keep the momentum going."

def tipLongNoQ : String :=
  "Great detail! End with a question like \x27What do you think?\x27 to invite Jordan back into the conversation."

def tipOvershare : String :=
  "Nice opener! In casual small talk, shorter first responses (2-3 sentences) leave room for back-and-forth to develop naturally."

structure CoachingContext where
  userText : String
  history : List Turn
  triggerKind : String
  cooldown : Bool
  jordanEndedConversation : Bool
deriving DecidableEq, Repr

/-- High-distress substring patterns of `detectDistressLevel`. -/
def highDistressPatterns : List String :=
  ["can\x27t keep going", "can\x27t go on", "give up", "no point", "want to die",
   "kill myself", "end it all", "better off dead", "no way out", "can\x27t take it"]

/-- Low-distress substring patterns of `detectDistressLevel`. -/
def lowDistressPatterns : List String :=
  ["struggling", "hard time", "feeling down", "stressed out", "overwhelmed",
   "depressed", "anxious", "worried", "can\x27t handle", "falling apart",
   "losing it", "breaking down", "burnt out", "exhausted"]

/-- `detectDistressLevel(text)`: 0 = none, 1 = low, 2 = high. -/
def detectDistressLevel (text : String) : Nat :=
  let lowerText := lowerStr text
  if highDistressPatterns.any (fun p => strIncludes lowerText p) then 2
  else if lowDistressPatterns.any (fun p => strIncludes lowerText p) then 1
  else 0

/-- `hasDescendingTrajectory(history, currentText)`: at least 2 user
messages with a distress signal among the last 5 turns plus the current
message. -/
def hasDescendingTrajectory (history : List Turn) (currentText : String) : Bool :=
  let recentMessages := sliceLast 5 history ++ [⟨.user, currentText, none⟩]
  decide (2 ≤ recentMessages.countP
    fun m => m.role == Role.user && decide (0 < detectDistressLevel m.content))

/-- `INTRODUCTION_PATTERNS.jordanIntro`:
`/\b(i'm jordan|i am jordan|name's jordan|name is jordan)\b/i`. -/
def jordanIntroTest (s : String) : Bool :=
  testBoundedAny s ["i\x27m jordan", "i am jordan", "name\x27s jordan", "name is jordan"]

/-- `INTRODUCTION_PATTERNS.userIntro`:
`/\b(i'm|i am|my name is|my name's|call me|they call me|people call me)\s+\w+/i`. -/
def userIntroTest (s : String) : Bool :=
  testIntroFollowedAny s
    ["i\x27m", "i am", "my name is", "my name\x27s", "call me", "they call me",
     "people call me"]

/-- `\s+\w+[.!]?$` tail of `casualNameShare`. -/
def tailNameTest : List Char → Bool
  | [] => false
  | c :: t =>
    isSpaceChar c &&
      match t.dropWhile isSpaceChar with
      | [] => false
      | d :: t2 =>
        isWordChar d &&
          (let t3 := t2.dropWhile isWordChar
           t3 == [] || t3 == ['.'] || t3 == ['!'])

/-- `INTRODUCTION_PATTERNS.casualNameShare`:
`/^(hey,?\s*)?(i'm|im)\s+\w+[.!]?$/i` (anchored; the optional `hey` group
can only apply when the text starts with `hey`, and the `(i'm|im)` core
cannot start with `h`). -/
def casualNameShareTest (s : String) : Bool :=
  let l := (lowerStr s).data
  let core : List Char → Bool := fun m =>
    (leadMatch m "i\x27m".data && tailNameTest (m.drop 3)) ||
    (leadMatch m "im".data && tailNameTest (m.drop 2))
  if leadMatch l "hey".data then
    let r1 := l.drop 3
    let r2 := match r1 with
      | ',' :: t => t
      | _ => r1
    core (r2.dropWhile isSpaceChar)
  else
    core l

/-- `ACKNOWLEDGMENT_WORDS` from `constants.ts`. -/
def ACKNOWLEDGMENT_WORDS : List String :=
  ["cool", "nice", "neat", "awesome", "interesting", "oh", "yeah", "yea",
   "wow", "really", "true", "right", "for sure", "totally", "same",
   "gotcha", "makes sense", "i see", "that\x27s cool", "that\x27s awesome",
   "sounds good", "sounds fun", "sounds like", "ah", "huh", "oh wow"]

/-- One alternation group of `MINIMAL_RESPONSE_PATTERNS[0]`. -/
def minimalAlt1 : List String :=
  ["cool", "nice", "neat", "awesome", "interesting", "ok", "okay", "k", "kk",
   "yeah", "yea", "yep", "nope", "mhm", "lol", "lmao", "haha", "true", "facts",
   "bet", "word", "same", "mood", "vibes", "lit", "fire", "slaps", "based"]

/-- `[.!]*$` tails of the minimal-response patterns. -/
def punctAllDotBang (l : List Char) : Bool :=
  l.all fun c => c == '.' || c == '!'

/-- `MINIMAL_RESPONSE_PATTERNS.some(p => p.test(s))` for an already
lowered and trimmed `s`; the three anchored patterns are
`/^(alt|…)[.!]*$/`, `/^(that's|thats)\s*(cool|…)[.!]*$/` and
`/^(sounds|seems)\s*(good|…)[.!]*$/`. -/
def minimalResponseTest (s : String) : Bool :=
  let l := s.data
  minimalAlt1.any (fun a => leadMatch l a.data && punctAllDotBang (l.drop a.data.length)) ||
  (["that\x27s", "thats"].any fun f =>
    leadMatch l f.data &&
      (let r := (l.drop f.data.length).dropWhile isSpaceChar
       ["cool", "nice", "awesome", "dope", "lit", "fire"].any fun g =>
         leadMatch r g.data && punctAllDotBang (r.drop g.data.length))) ||
  (["sounds", "seems"].any fun f =>
    leadMatch l f.data &&
      (let r := (l.drop f.data.length).dropWhile isSpaceChar
       ["good", "cool", "fun", "nice"].any fun g =>
         leadMatch r g.data && punctAllDotBang (r.drop g.data.length)))

/-- `l == []` or `l == ['?']`: the `\??$` tails of the deflection
patterns. -/
def isOptQ (l : List Char) : Bool :=
  l == [] || l == ['?']

/-- `\s*(too|2)?\??$` tail of `/^(you|u)\s*(too|2)?\??$/`. -/
def deflectTooTail (r : List Char) : Bool :=
  let r1 := r.dropWhile isSpaceChar
  isOptQ r1 ||
    (leadMatch r1 "too".data && isOptQ (r1.drop 3)) ||
    (leadMatch r1 "2".data && isOptQ (r1.drop 1))

/-- `DEFLECTION_PATTERNS.some(p => p.test(s))` for an already lowered and
trimmed `s`; the six anchored patterns from `constants.ts` in order. -/
def deflectionTest (s : String) : Bool :=
  let l := s.data
  (leadMatch l "you".data && isOptQ (l.drop 3)) ||
  (["what about", "how about", "and"].any fun a =>
    leadMatch l a.data &&
      (let r := l.drop a.data.length
       leadMatch r " you".data && isOptQ (r.drop 4))) ||
  ((leadMatch l "you".data && deflectTooTail (l.drop 3)) ||
   (leadMatch l "u".data && deflectTooTail (l.drop 1))) ||
  (leadMatch l "hbu".data && isOptQ (l.drop 3)) ||
  (leadMatch l "wbu".data && isOptQ (l.drop 3)) ||
  (leadMatch l "same".data &&
    (let r := l.drop 4
     let r2 := match r with
       | c :: t => if c == ',' || c == '.' then t else c :: t
       | [] => []
     let r3 := r2.dropWhile isSpaceChar
     (leadMatch r3 "you".data && isOptQ (r3.drop 3)) ||
     (leadMatch r3 "u".data && isOptQ (r3.drop 1))))

/-- `greetingOnlyPattern`:
`/^(hey|hi|hello|yo|sup|what's up|wassup|hiya|howdy)[\s!.]*$/i`, applied
by the source to already-lowered text (lowered again here, harmlessly). -/
def greetingOnlyTest (s : String) : Bool :=
  let l := (lowerStr s).data
  ["hey", "hi", "hello", "yo", "sup", "what\x27s up", "wassup", "hiya", "howdy"].any
    fun g =>
      leadMatch l g.data &&
        (l.drop g.data.length).all fun c => isSpaceChar c || c == '!' || c == '.'

/-- `checkSelfIntroduction(userText, history)`. -/
def checkSelfIntroduction (userText : String) (history : List Turn) : Option String :=
  if history.length = 0 ∨ 3 < history.length then none
  else
    let jordanFirstMsg :=
      (((history.find? fun h => h.role == Role.assistant).map Turn.content).getD "")
    if !jordanIntroTest jordanFirstMsg then none
    else
      let allUserMessages :=
        ((history.filter fun h => h.role == Role.user).map Turn.content) ++ [userText]
      let userIntroduced :=
        allUserMessages.any fun msg => userIntroTest msg || casualNameShareTest msg
      if !userIntroduced && decide (1 ≤ history.length) then some tipSelfIntro else none

/-- `checkActiveListening(userText, history)`. -/
def checkActiveListening (userText : String) (history : List Turn) : Option String :=
  if history.length < 2 then none
  else
    match history.getLast? with
    | none => none
    | some lastJordan =>
      if lastJordan.role != Role.assistant then none
      else if strIncludes lastJordan.content "?" then none
      else if !strIncludes userText "?" then none
      else
        let userLower := trimStr (lowerStr userText)
        -- `new RegExp("\\b" ++ word ++ "\\b", "i")` per acknowledgment word
        if ACKNOWLEDGMENT_WORDS.any (fun w => occursBounded userLower.data w.data) then none
        else if wordCountJS userText < 10 then some tipActiveListening
        else none

/-- `checkBuildOnShare(userText, history)`. -/
def checkBuildOnShare (userText : String) (history : List Turn) : Option String :=
  if history.length < 2 then none
  else
    match history.getLast? with
    | none => none
    | some lastJordan =>
      if lastJordan.role != Role.assistant then none
      else if !testIntroFollowedAny lastJordan.content
            ["i", "i\x27m", "i\x27ve", "my", "i\x27d", "i\x27ll"] then none
      else
        let userLower := trimStr (lowerStr userText)
        let isMinimalResponse := minimalResponseTest userLower
        let wordCount := wordCountJS userText
        let hasQuestion := strIncludes userText "?"
        if (isMinimalResponse || decide (wordCount ≤ 3)) && !hasQuestion then
          some tipBuildOnShare
        else none

/-- `checkDeflection(userText, history)`. -/
def checkDeflection (userText : String) (history : List Turn) : Option String :=
  if history.length < 2 then none
  else
    match history.getLast? with
    | none => none
    | some lastJordan =>
      if lastJordan.role != Role.assistant then none
      else if !strIncludes lastJordan.content "?" then none
      else if deflectionTest (trimStr (lowerStr userText)) then some tipDeflection
      else none

/-! ### `checkRepeatedQuestion` machinery

`userQuestion.match(/\b(what|where|how|why|which|who|when)\s+[^?]+/gi)`:
at a word-boundary occurrence of a question word, the greedy
`\s+[^?]+` consumes the whole maximal run `R` of non-`?` characters that
follows, and the match succeeds exactly when `R` starts with whitespace
and has length at least 2 (`\s+` needs one character, `[^?]+` another);
the global scan then resumes after the match.  The fuel argument is the
initial list length: every step consumes at least one character, so the
fuel never runs out before the text does. -/

def questionWords : List String :=
  ["what", "where", "how", "why", "which", "who", "when"]

/-- The stop-word alternation removed from a topic before comparing
against Jordan's messages. -/
def topicStopWords : List String :=
  ["what", "where", "how", "why", "which", "who", "when", "do", "does", "did",
   "is", "are", "was", "were", "you", "your"]

/-- A question-word match starting exactly at `hay` (boundary checked by
the caller): returns the matched topic `word ++ R` and the rest. -/
def qMatchAt (hay : List Char) : Option (List Char × List Char) :=
  questionWords.findSome? fun w =>
    if leadMatch hay w.data then
      let R := (hay.drop w.data.length).takeWhile fun c => c != '?'
      if (match R with
          | c :: _ => isSpaceChar c
          | [] => false) && decide (2 ≤ R.length) then
        some (w.data ++ R, hay.drop (w.data.length + R.length))
      else none
    else none

/-- Global scan collecting the question-topic matches in order. -/
def qTopicsFuel : Nat → Option Char → List Char → List (List Char)
  | 0, _, _ => []
  | _ + 1, prev, [] => (fun _ => []) prev
  | fuel + 1, prev, c :: t =>
    match (if boundaryBefore prev then qMatchAt (c :: t) else none) with
    | some (topic, rest) => topic :: qTopicsFuel fuel topic.getLast? rest
    | none => qTopicsFuel fuel (some c) t

/-- `s.match(/\b(what|…)\s+[^?]+/gi)` on already-lowered `s`. -/
def qTopicsOf (s : List Char) : List (List Char) :=
  qTopicsFuel s.length none s

/-- A stop-word match (`\bword\b`) starting exactly at `hay`. -/
def stopMatchAt (hay : List Char) : Option (List Char × List Char) :=
  topicStopWords.findSome? fun w =>
    if leadMatch hay w.data && boundaryAfterL (hay.drop w.data.length) then
      some (w.data, hay.drop w.data.length)
    else none

/-- `topic.replace(/\b(what|…|your)\b/g, "")`: removes every bounded
stop-word occurrence, scanning left to right. -/
def removeStopFuel : Nat → Option Char → List Char → List Char
  | 0, _, l => l
  | _ + 1, _, [] => []
  | fuel + 1, prev, c :: t =>
    match (if boundaryBefore prev then stopMatchAt (c :: t) else none) with
    | some (w, rest) => removeStopFuel fuel w.getLast? rest
    | none => c :: removeStopFuel fuel (some c) t

/-- Splits on whitespace runs (the `split(/\s+/)` of a trimmed string;
the empty string gives `[]` here instead of `[""]`, which the `length >
3` filter discards anyway). -/
def splitWsAux (cur : List Char) : List Char → List (List Char)
  | [] => if cur.isEmpty then [] else [cur.reverse]
  | c :: t =>
    if isSpaceChar c then
      if cur.isEmpty then splitWsAux [] t else cur.reverse :: splitWsAux [] t
    else splitWsAux (c :: cur) t

/-- JS `trim` on a character list. -/
def trimL (l : List Char) : List Char :=
  ((l.dropWhile isSpaceChar).reverse.dropWhile isSpaceChar).reverse

/-- `topic.replace(stopwords, "").trim().split(/\s+/).filter(w => w.length > 3)`. -/
def topicWordsOf (topic : List Char) : List (List Char) :=
  (splitWsAux [] (trimL (removeStopFuel topic.length none topic))).filter
    fun w => 3 < w.length

/-- `checkRepeatedQuestion(userText, history)`. -/
def checkRepeatedQuestion (userText : String) (history : List Turn) : Option String :=
  let jordanMessages :=
    (history.filter fun h => h.role == Role.assistant).map fun h => lowerStr h.content
  let userQuestion := lowerStr userText
  let questionTopics := qTopicsOf userQuestion.data
  if questionTopics.isEmpty then none
  else
    let alreadyAnswered := jordanMessages.any fun jordanMsg =>
      questionTopics.any fun topic =>
        let topicWords := topicWordsOf topic
        if 0 < topicWords.length then
          decide (min 2 topicWords.length ≤
            (topicWords.filter fun w => subMatch w jordanMsg.data).length)
        else false
    if alreadyAnswered then some tipRepeatedQuestion else none

/-- The wind-down cue alternations of `checkExitCues`, expanded from the
four source regexes (leading `\b` only), each with its cue type. -/
def windDownPatterns : List (List String × String) :=
  [(["should get going", "should head out", "should take off", "should grab",
     "should run", "gotta go", "gotta run", "gotta get going"], "leaving"),
   (["take care", "see you", "good luck", "catch you later", "have a good",
     "nice talking", "good chatting"], "farewell"),
   (["anyway", "alright", "well then", "well, then"], "transition"),
   (["let you get back", "let you go", "i\x27ll let you"], "release")]

/-- `checkExitCues(userText, history, jordanEnded)`. -/
def checkExitCues (userText : String) (history : List Turn)
    (jordanEnded : Bool) : Option String :=
  if jordanEnded then none
  else
    let recentJordanMsgs := (sliceLast 5 history).filter fun h => h.role == Role.assistant
    let found := (sliceLast 2 recentJordanMsgs).findSome? fun m =>
      windDownPatterns.findSome? fun pt =>
        if testBoundedLeadAny m.content pt.1 then some pt.2 else none
    match found with
    | none => none
    | some exitType =>
      let userWindingDown := testBoundedLeadAny userText
        ["bye", "goodbye", "see you", "take care", "thanks", "gotta go",
         "have a good", "nice talking"]
      if userWindingDown then none
      else if exitType == "leaving" || exitType == "farewell" then some tipExitFarewell
      else some tipExitWind

/-- The stuck/uncertain regex
`/\b(i don't know|idk|not sure|no clue|can't think|i'm stuck|don't know what)\b/i`
applied to `userText.toLowerCase()`. -/
def stuckTest (s : String) : Bool :=
  testBoundedAny s
    ["i don\x27t know", "idk", "not sure", "no clue", "can\x27t think",
     "i\x27m stuck", "don\x27t know what"]

/-- `hasAnswerContent` alternation of the direct-question check. -/
def answerContentWords : List String :=
  ["i", "i\x27m", "i\x27ve", "my", "me", "mine", "i\x27d", "i\x27ll", "yeah",
   "yes", "no", "nope", "definitely", "absolutely", "sure", "totally"]

/-! ### The `generateCoachTip` ladder, one definition per source `return`

Each rung recomputes the local bindings of `generateCoachTip` it needs
(`wordCount`, `hasQuestion`, `userMessages`, `lastThreeUserMsgs`,
`isGreetingOnly`); all are pure functions of the context, so this equals
the source's single computation. -/

/-- `userMessages`: history user turns plus the current message. -/
def userMessagesOf (context : CoachingContext) : List Turn :=
  (context.history ++ [Turn.mk Role.user context.userText none]).filter
    fun h => h.role == Role.user

/-- `isGreetingOnly` of `generateCoachTip`. -/
def isGreetingOnlyOf (context : CoachingContext) : Bool :=
  greetingOnlyTest context.userText && decide (wordCountJS context.userText < 3)

/-- `history.slice(-1).find(h => h.role === "assistant")?.content || ""`. -/
def lastJordanContentOf (history : List Turn) : String :=
  (((sliceLast 1 history).find? fun h => h.role == Role.assistant).map
    Turn.content).getD ""

/-- Self-introduction rung. -/
def rungSelfIntro (context : CoachingContext) : Option String :=
  if 1 ≤ context.history.length ∧ context.history.length ≤ 3 then
    checkSelfIntroduction context.userText context.history
  else none

/-- Not answering Jordan's direct question. -/
def rungDirectQuestion (context : CoachingContext) : Option String :=
  if 2 ≤ context.history.length then
    match context.history.getLast? with
    | some lastJordan =>
      if lastJordan.role == Role.assistant && strIncludes lastJordan.content "?" then
        if isGreetingOnlyOf context then some tipAnswerChance
        else
          let hasAnswerContent := testBoundedAny context.userText answerContentWords
          if strIncludes context.userText "?"
              && decide (wordCountJS context.userText < 6) && !hasAnswerContent then
            some tipAnswerFirst
          else none
      else none
    | none => none
  else none

/-- Repeated greeting instead of conversing. -/
def rungRepeatedGreeting (context : CoachingContext) : Option String :=
  if isGreetingOnlyOf context = true ∧ 0 < context.history.length then
    if strIncludes (lastJordanContentOf context.history) "?" then some tipGreetQuestion
    else some tipGreetAdd
  else none

/-- Asking about something Jordan already shared. -/
def rungRepeatedQuestion (context : CoachingContext) : Option String :=
  if strIncludes context.userText "?" = true ∧ 3 ≤ context.history.length then
    checkRepeatedQuestion context.userText context.history
  else none

/-- Active-listening rung. -/
def rungActiveListening (context : CoachingContext) : Option String :=
  if 2 ≤ context.history.length ∧ strIncludes context.userText "?" = true then
    checkActiveListening context.userText context.history
  else none

/-- Build-on-the-share rung. -/
def rungBuildOnShare (context : CoachingContext) : Option String :=
  if 2 ≤ context.history.length then
    checkBuildOnShare context.userText context.history
  else none

/-- Deflection rung. -/
def rungDeflection (context : CoachingContext) : Option String :=
  if 2 ≤ context.history.length then
    checkDeflection context.userText context.history
  else none

/-- Exit-cue rung. -/
def rungExitCues (context : CoachingContext) : Option String :=
  if 3 ≤ context.history.length then
    checkExitCues context.userText context.history context.jordanEndedConversation
  else none

/-- Stuck/uncertain rung. -/
def rungStuck (context : CoachingContext) : Option String :=
  if stuckTest context.userText then
    if strIncludes (lastJordanContentOf context.history) "?" then some tipStuckRedirect
    else some tipStuckCurious
  else none

/-- Interview-mode rung. -/
def rungInterview (context : CoachingContext) : Option String :=
  let userMessages := userMessagesOf context
  let lastThreeUserMsgs := sliceLast 3 userMessages
  if 3 ≤ userMessages.length
      ∧ 3 ≤ (lastThreeUserMsgs.filter fun m => strIncludes m.content "?").length
      ∧ (lastThreeUserMsgs.any fun m => decide (15 < wordCountJS m.content)) = false
  then some tipInterview else none

/-- No-reciprocity rung (guarded by the last-3-user-messages distress
check). -/
def rungReciprocity (context : CoachingContext) : Option String :=
  let lastThreeUserMsgs := sliceLast 3 (userMessagesOf context)
  if context.jordanEndedConversation = false ∧ 4 ≤ context.history.length
      ∧ isGreetingOnlyOf context = false
      ∧ (lastThreeUserMsgs.any fun m => decide (0 < detectDistressLevel m.content)) = false
      ∧ (lastThreeUserMsgs.all fun m =>
          !(greetingOnlyTest m.content && decide (wordCountJS m.content < 3))
            && !strIncludes m.content "?") = true
  then some tipReciprocity else none

/-- Milestone check-in at 3 history entries. -/
def rungMilestone3 (context : CoachingContext) : Option String :=
  if context.history.length = 3
      ∧ ((userMessagesOf context).any fun m => strIncludes m.content "?") = false
      ∧ strIncludes context.userText "?" = false
  then some tipMilestone3 else none

/-- Milestone check-in at 5 history entries. -/
def rungMilestone5 (context : CoachingContext) : Option String :=
  if context.history.length = 5 then some tipMilestone5 else none

/-- Milestone check-in at 8 history entries. -/
def rungMilestone8 (context : CoachingContext) : Option String :=
  if context.history.length = 8 then some tipMilestone8 else none

/-- Extreme-brevity rung. -/
def rungBrevity (context : CoachingContext) : Option String :=
  if wordCountJS context.userText < 3 ∧ isGreetingOnlyOf context = false
      ∧ 2 < context.history.length
  then some tipBrevity else none

/-- Long-without-question rung. -/
def rungLongNoQ (context : CoachingContext) : Option String :=
  if 60 < wordCountJS context.userText ∧ strIncludes context.userText "?" = false
      ∧ 1 < context.history.length
  then some tipLongNoQ else none

/-- First-message overshare rung. -/
def rungOvershare (context : CoachingContext) : Option String :=
  if context.history.length = 1 ∧ 50 < wordCountJS context.userText then
    some tipOvershare
  else none

/-- The non-safety rungs in source order. -/
def ladderRungs : List (CoachingContext → Option String) :=
  [rungSelfIntro, rungDirectQuestion, rungRepeatedGreeting, rungRepeatedQuestion,
   rungActiveListening, rungBuildOnShare, rungDeflection, rungExitCues,
   rungStuck, rungInterview, rungReciprocity, rungMilestone3, rungMilestone5,
   rungMilestone8, rungBrevity, rungLongNoQ, rungOvershare]

/-- The priority ladder of `generateCoachTip` after its suppression
guards: the safety tips, then the first non-safety rung that fires (the
first source `return`). -/
def coachTipLadder (context : CoachingContext) : Option String :=
  if context.triggerKind == "PII" then some tipPII
  else if context.triggerKind == "CONTROVERSIAL" then some tipControversial
  else if context.triggerKind == "CRISIS" then some tipCrisisAdjacent
  else ladderRungs.findSome? fun rung => rung context

/-- `generateCoachTip(context)`: the cooldown, rate-limit, spacing and
distress-pre-filter guards (the latter three suppressing everything but
the PII/CONTROVERSIAL/CRISIS safety kinds, the cooldown guard
suppressing unconditionally), then the priority ladder. -/
def generateCoachTip (context : CoachingContext) : Option String :=
  if context.cooldown then none
  else
    let history := context.history
    let triggerKind := context.triggerKind
    let isSafetyKind :=
      triggerKind == "PII" || triggerKind == "CONTROVERSIAL" || triggerKind == "CRISIS"
    let tipCount := (history.filter fun h => h.coachTip.isSome).length
    if 4 ≤ tipCount ∧ isSafetyKind = false then none
    else
      let recentTipCount :=
        ((sliceLast 3 history).filter fun h => h.coachTip.isSome).length
      if 0 < recentTipCount ∧ isSafetyKind = false then none
      else if (0 < detectDistressLevel context.userText
                ∨ hasDescendingTrajectory history context.userText = true)
              ∧ isSafetyKind = false then none
      else coachTipLadder context

/-! ### Concrete contexts used by witnesses and counterexamples -/

/-- A history already carrying five coach tips (rate limit reached). -/
def tipHeavyHistory : List Turn :=
  [⟨.assistant, "hello there", some "tip one"⟩,
   ⟨.user, "hi", some "tip two"⟩,
   ⟨.assistant, "how are you?", some "tip three"⟩,
   ⟨.user, "fine", some "tip four"⟩,
   ⟨.assistant, "good to hear", some "tip five"⟩]

/-- A five-turn history whose second entry (a user message within the
last three user messages) carries a low distress signal
("stressed out"), while the current message is clean. -/
def distressInLastThreeHistory : List Turn :=
  [⟨.assistant, "hey, welcome to the bookstore", none⟩,
   ⟨.user, "i am so stressed out lately", none⟩,
   ⟨.assistant, "that sounds rough", none⟩,
   ⟨.user, "yeah just lots of work at school", none⟩,
   ⟨.assistant, "nice weather today at least", none⟩]

/-- Coaching context whose last three user messages contain a distress
signal but whose current message and five-message window do not trip the
pre-filter. -/
def distressInLastThreeContext : CoachingContext :=
  ⟨"the weather has been pretty good this week", distressInLastThreeHistory,
   "NONE", false, false⟩

/-! ## Theorems -/

/-! ### Prioritizer lemmas -/

theorem pickBest_eq_or (b t : Trigger) : pickBest b t = b ∨ pickBest b t = t := by
  unfold pickBest
  split
  · exact Or.inr rfl
  · exact Or.inl rfl

theorem pickBest_rank_le_left (b t : Trigger) :
    SEVERITY_ORDER.indexOf (pickBest b t).kind ≤ SEVERITY_ORDER.indexOf b.kind := by
  unfold pickBest
  split
  · omega
  · exact le_refl _

theorem pickBest_rank_le_right (b t : Trigger) :
    SEVERITY_ORDER.indexOf (pickBest b t).kind ≤ SEVERITY_ORDER.indexOf t.kind := by
  unfold pickBest
  split
  · exact le_refl _
  · omega

theorem foldl_pickBest_mem (l : List Trigger) (acc : Trigger) :
    l.foldl pickBest acc = acc ∨ l.foldl pickBest acc ∈ l := by
  induction l generalizing acc with
  | nil => exact Or.inl rfl
  | cons x xs ih =>
    simp only [List.foldl_cons]
    rcases ih (pickBest acc x) with h | h
    · rcases pickBest_eq_or acc x with h2 | h2
      · exact Or.inl (by rw [h, h2])
      · exact Or.inr (by rw [h, h2]; exact List.mem_cons_self _ _)
    · exact Or.inr (List.mem_cons_of_mem _ h)

theorem foldl_pickBest_le_acc (l : List Trigger) (acc : Trigger) :
    SEVERITY_ORDER.indexOf (l.foldl pickBest acc).kind ≤ SEVERITY_ORDER.indexOf acc.kind := by
  induction l generalizing acc with
  | nil => exact le_refl _
  | cons x xs ih =>
    simp only [List.foldl_cons]
    exact le_trans (ih (pickBest acc x)) (pickBest_rank_le_left acc x)

theorem foldl_pickBest_le_mem (l : List Trigger) (acc : Trigger) :
    ∀ t ∈ l, SEVERITY_ORDER.indexOf (l.foldl pickBest acc).kind ≤ SEVERITY_ORDER.indexOf t.kind := by
  induction l generalizing acc with
  | nil => intro t ht; cases ht
  | cons x xs ih =>
    intro t ht
    simp only [List.foldl_cons]
    rcases List.mem_cons.mp ht with rfl | h
    · exact le_trans (foldl_pickBest_le_acc xs (pickBest acc t)) (pickBest_rank_le_right acc t)
    · exact ih (pickBest acc x) t h

theorem prioritize_mem (ts : List Trigger) (h : ts ≠ []) : prioritize ts ∈ ts := by
  match ts with
  | [] => exact absurd rfl h
  | t0 :: rest =>
    rcases foldl_pickBest_mem (t0 :: rest) t0 with h2 | h2
    · rw [show prioritize (t0 :: rest) = (t0 :: rest).foldl pickBest t0 from rfl, h2]
      exact List.mem_cons_self _ _
    · exact h2

theorem prioritize_min (ts : List Trigger) :
    ∀ t ∈ ts, SEVERITY_ORDER.indexOf (prioritize ts).kind ≤ SEVERITY_ORDER.indexOf t.kind := by
  match ts with
  | [] => intro t ht; cases ht
  | t0 :: rest => exact foldl_pickBest_le_mem (t0 :: rest) t0

theorem indexOf_severity_inj :
    ∀ a b : Severity, SEVERITY_ORDER.indexOf a = SEVERITY_ORDER.indexOf b → a = b := by
  decide

theorem indexOf_severity_zero :
    ∀ a : Severity, SEVERITY_ORDER.indexOf a = 0 → a = Severity.CRISIS := by
  decide

/-- Claim C9, packaged: empty-list behaviour, membership, minimality,
permutation invariance of the resolved kind, and the `{PII,
CONTROVERSIAL}` instance. -/
theorem claim_C9 :
    prioritize [] = ⟨Severity.NONE, "none"⟩
    ∧ (∀ ts : List Trigger, ts ≠ [] →
        prioritize ts ∈ ts
          ∧ ∀ t ∈ ts,
              SEVERITY_ORDER.indexOf (prioritize ts).kind ≤ SEVERITY_ORDER.indexOf t.kind)
    ∧ (∀ ts ts' : List Trigger, ts.Perm ts' → (prioritize ts).kind = (prioritize ts').kind)
    ∧ (∀ ts : List Trigger,
        (∀ t ∈ ts, t.kind = Severity.PII ∨ t.kind = Severity.CONTROVERSIAL) →
        (∃ t ∈ ts, t.kind = Severity.PII) → (prioritize ts).kind = Severity.PII) := by
  refine ⟨rfl, fun ts h => ⟨prioritize_mem ts h, prioritize_min ts⟩, ?_, ?_⟩
  · intro ts ts' h
    rcases eq_or_ne ts [] with rfl | hne
    · rw [List.Perm.eq_nil h.symm]
    · have hne' : ts' ≠ [] := fun he => hne (List.Perm.eq_nil (he ▸ h))
      have h1 : prioritize ts ∈ ts' := h.mem_iff.mp (prioritize_mem ts hne)
      have h2 : prioritize ts' ∈ ts := h.mem_iff.mpr (prioritize_mem ts' hne')
      exact indexOf_severity_inj _ _
        (le_antisymm (prioritize_min ts _ h2) (prioritize_min ts' _ h1))
  · intro ts hall hex
    obtain ⟨t, ht, hk⟩ := hex
    have hne : ts ≠ [] := fun he => by subst he; cases ht
    have hmin := prioritize_min ts t ht
    rw [hk] at hmin
    rcases hall _ (prioritize_mem ts hne) with h | h
    · exact h
    · rw [h] at hmin
      exact absurd hmin (by decide)

/-- Witness for C9 at a concrete two-element trigger list. -/
theorem claim_C9_witness :
    (prioritize [⟨Severity.CONTROVERSIAL, "controversial"⟩, ⟨Severity.PII, "pii"⟩]).kind
      = Severity.PII :=
  claim_C9.2.2.2 _ (by intro t ht; fin_cases ht <;> simp)
    ⟨⟨Severity.PII, "pii"⟩, List.mem_cons_of_mem _ (List.mem_cons_self _ _), rfl⟩

/-! ### Distress analysis (claims C1, C2) -/

/-- Claim C1: any tier-1 keyword occurring (case-insensitively) in the
text makes `analyzeDistress` return severity `high`, for every
accumulation count (in particular every count ≥ 0) — the tier-1 scan
precedes and ignores the accumulator. -/
theorem claim_C1 (text : String) (tier2Count : Int) (kw : String)
    (hkw : kw ∈ TIER_1_CRISIS_KEYWORDS)
    (hinc : strIncludes (lowerStr text) kw = true) :
    (analyzeDistress text tier2Count).severity = DistressSeverity.high := by
  have hsome : (TIER_1_CRISIS_KEYWORDS.find?
      fun keyword => strIncludes (lowerStr text) keyword).isSome := by
    rw [List.find?_isSome]
    exact ⟨kw, hkw, hinc⟩
  rcases hfind : TIER_1_CRISIS_KEYWORDS.find?
      fun keyword => strIncludes (lowerStr text) keyword with _ | k
  · rw [hfind] at hsome; cases hsome
  · simp only [analyzeDistress, hfind]

/-- Witness for C1: "I want to KILL myself" with count 0. -/
theorem claim_C1_witness :
    (analyzeDistress "I want to KILL myself" 0).severity = DistressSeverity.high :=
  claim_C1 "I want to KILL myself" 0 "kill myself" (by decide) (by decide)

/-- Claim C2: a tier-2 keyword with no tier-1 keyword yields severity
`none` with `foundTier2 = true` at prior count 0 (the session counter
then becomes 1), and severity `low` (still `foundTier2 = true`) at prior
count 1. -/
theorem claim_C2 (text : String)
    (h2 : ∃ kw ∈ TIER_2_DISTRESS_KEYWORDS, strIncludes (lowerStr text) kw = true)
    (h1 : ∀ kw ∈ TIER_1_CRISIS_KEYWORDS, strIncludes (lowerStr text) kw = false) :
    (analyzeDistress text 0).severity = DistressSeverity.none
    ∧ (analyzeDistress text 0).foundTier2 = true
    ∧ (analyzeDistress text 1).severity = DistressSeverity.low
    ∧ (analyzeDistress text 1).foundTier2 = true := by
  have hfind : TIER_1_CRISIS_KEYWORDS.find?
      (fun keyword => strIncludes (lowerStr text) keyword) = none := by
    rw [List.find?_eq_none]
    intro x hx
    rw [h1 x hx]
    exact Bool.false_ne_true
  have hne : (TIER_2_DISTRESS_KEYWORDS.filter
      fun keyword => strIncludes (lowerStr text) keyword).isEmpty = false := by
    obtain ⟨kw, hkw, hinc⟩ := h2
    rcases hfil : (TIER_2_DISTRESS_KEYWORDS.filter
        fun keyword => strIncludes (lowerStr text) keyword) with _ | _
    · exact absurd (List.filter_eq_nil_iff.mp hfil kw hkw) (by rw [hinc]; simp)
    · rfl
  simp only [analyzeDistress, hfind, hne, Bool.false_eq_true, if_false]
  norm_num

/-- Witness for C2: "i think i\x27m hopeless about this exam" (one tier-2
hit, no tier-1 hit) at counts 0 and 1. -/
theorem claim_C2_witness :
    (analyzeDistress "i think I\x27m hopeless about this exam" 0).severity
        = DistressSeverity.none
    ∧ (analyzeDistress "i think I\x27m hopeless about this exam" 0).foundTier2 = true
    ∧ (analyzeDistress "i think I\x27m hopeless about this exam" 1).severity
        = DistressSeverity.low
    ∧ (analyzeDistress "i think I\x27m hopeless about this exam" 1).foundTier2 = true :=
  claim_C2 "i think I\x27m hopeless about this exam"
    ⟨"hopeless", by decide, by decide⟩ (by decide)

/-! ### Crisis Context Classifier failure policy (claim C3) -/

/-- Claim C3: every failure event of the classifier wrapper — thrown
request/network/timeout error, non-success gateway status, or an
unparseable model reply — yields the verdict severity `"crisis"`, never
`"safe"` or `"coaching"`. -/
theorem claim_C3 (e : GatewayEvent)
    (h : e = GatewayEvent.requestError ∨ e = GatewayEvent.badStatus
      ∨ e = GatewayEvent.unparseableReply) :
    (analyzeCrisisContextServe e).severity = "crisis"
    ∧ (analyzeCrisisContextServe e).severity ≠ "safe"
    ∧ (analyzeCrisisContextServe e).severity ≠ "coaching" := by
  rcases h with rfl | rfl | rfl <;> exact ⟨rfl, by decide, by decide⟩

/-- Witness for C3 at the request-error event. -/
theorem claim_C3_witness :
    (analyzeCrisisContextServe GatewayEvent.requestError).severity = "crisis"
    ∧ (analyzeCrisisContextServe GatewayEvent.requestError).severity ≠ "safe"
    ∧ (analyzeCrisisContextServe GatewayEvent.requestError).severity ≠ "coaching" :=
  claim_C3 GatewayEvent.requestError (Or.inl rfl)

/-! ### Response moderation failure handling (claim C4) -/

/-- Counterexample to C4 as stated: when the `moderate-response`
invocation itself fails (network error reaching the edge function), the
client's catch path does return `safe = false`, but it inserts **no**
moderation log entry — even with a session DB id available — and shows
the technical-difficulties line rather than the moderation fallback
line.  The claim's "a moderation log entry is created recording the
blocked original and its rejection reason" is false at this input. -/
theorem claim_C4_cex :
    (moderateJordanResponse "What team do you root for?" "ctx" (some "session-1")
        InvokeOutcome.invokeError).safe = false
    ∧ (moderateJordanResponse "What team do you root for?" "ctx" (some "session-1")
        InvokeOutcome.invokeError).logInserts = []
    ∧ (moderateJordanResponse "What team do you root for?" "ctx" (some "session-1")
        InvokeOutcome.invokeError).finalResponse
      = "Sorry, I\x27m having technical difficulties. Let\x27s try again!" :=
  ⟨rfl, rfl, rfl⟩

/-- Claim C4 as amended: (1) failures inside the moderation edge
function (AI-gateway network error, the 25s timeout, a non-success
status, or unparseable model output) come back as `safe = false` with a
reason, whereupon the client blocks the reply, substitutes the fixed
fallback line, and — when a session DB id is present — inserts a
moderation log entry recording the blocked original and the reason;
(2) a failure of the function invocation itself also yields
`safe = false` and a (different) fixed fallback line, but inserts no log
entry. -/
theorem claim_C4 :
    (∀ (response context sid : String) (e : ModGatewayEvent),
      e = ModGatewayEvent.aiError ∨ e = ModGatewayEvent.unparseable →
      (moderateResponseServe e).1 = false
      ∧ (moderateJordanResponse response context (some sid)
          (InvokeOutcome.response (moderateResponseServe e).1
            (some (moderateResponseServe e).2))).safe = false
      ∧ (moderateJordanResponse response context (some sid)
          (InvokeOutcome.response (moderateResponseServe e).1
            (some (moderateResponseServe e).2))).finalResponse
        = "I\x27m having trouble thinking of what to say. Can you ask me something else?"
      ∧ (moderateJordanResponse response context (some sid)
          (InvokeOutcome.response (moderateResponseServe e).1
            (some (moderateResponseServe e).2))).logInserts
        = [⟨sid, response, (moderateResponseServe e).2⟩])
    ∧ (∀ response context : String, ∀ sid : Option String,
        (moderateJordanResponse response context sid InvokeOutcome.invokeError).safe = false
        ∧ (moderateJordanResponse response context sid InvokeOutcome.invokeError).finalResponse
          = "Sorry, I\x27m having technical difficulties. Let\x27s try again!"
        ∧ (moderateJordanResponse response context sid InvokeOutcome.invokeError).logInserts
          = []) := by
  constructor
  · intro response context sid e he
    rcases he with rfl | rfl <;> exact ⟨rfl, rfl, rfl, rfl⟩
  · intro response context sid
    exact ⟨rfl, rfl, rfl⟩

/-- Witness for C4 (amended) at the AI-error event with a concrete
session. -/
theorem claim_C4_witness :
    (moderateJordanResponse "What\x27s your phone number?" "ctx" (some "session-1")
        (InvokeOutcome.response (moderateResponseServe ModGatewayEvent.aiError).1
          (some (moderateResponseServe ModGatewayEvent.aiError).2))).safe = false
    ∧ (moderateJordanResponse "What\x27s your phone number?" "ctx" (some "session-1")
        (InvokeOutcome.response (moderateResponseServe ModGatewayEvent.aiError).1
          (some (moderateResponseServe ModGatewayEvent.aiError).2))).logInserts
      = [⟨"session-1", "What\x27s your phone number?",
          "Moderation system error - blocked for safety"⟩] := by
  have h := claim_C4.1 "What\x27s your phone number?" "ctx" "session-1"
    ModGatewayEvent.aiError (Or.inl rfl)
  exact ⟨h.2.1, h.2.2.2⟩

/-! ### Tier-2 keywords force the deterministic crisis branch (claim C10) -/

theorem prioritize_cons_crisis (t0 : Trigger) (rest : List Trigger)
    (h : t0.kind = Severity.CRISIS) :
    (prioritize (t0 :: rest)).kind = Severity.CRISIS := by
  apply indexOf_severity_zero
  have hle := prioritize_min (t0 :: rest) t0 (List.mem_cons_self _ _)
  rw [h] at hle
  have hz : SEVERITY_ORDER.indexOf Severity.CRISIS = 0 := by decide
  rw [hz] at hle
  exact Nat.le_zero.mp hle

/-- Claim C10: because `CRISIS_KEYWORDS` concatenates the tier-1 and
tier-2 lists, any tier-2 keyword occurring (case-insensitively) in the
text makes `detectTriggers` report a `CRISIS` trigger, `prioritize`
resolve the message severity to `CRISIS`, and the orchestrator's `send`
take the deterministic crisis branch (no language-model call) — all
independent of the two-count tier-2 accumulation, which `send` never
consults. -/
theorem claim_C10 (piiTest : String → Bool) (text kw : String)
    (hkw : kw ∈ TIER_2_DISTRESS_KEYWORDS)
    (hinc : strIncludes (lowerStr text) kw = true) :
    (∃ t ∈ detectTriggers piiTest text, t.kind = Severity.CRISIS)
    ∧ (prioritize (detectTriggers piiTest text)).kind = Severity.CRISIS
    ∧ sendTakesCrisisBranch piiTest text = true := by
  have hany : CRISIS_KEYWORDS.any (fun k => strIncludes (lowerStr text) k) = true := by
    rw [List.any_eq_true]
    exact ⟨kw, List.mem_append_right _ hkw, hinc⟩
  obtain ⟨rest, hrest⟩ :
      ∃ rest, detectTriggers piiTest text = ⟨Severity.CRISIS, "crisis"⟩ :: rest := by
    refine ⟨(if piiTest text then [⟨Severity.PII, "pii"⟩] else [])
        ++ (if CONTROVERSIAL_KEYWORDS.any (fun k => strIncludes (lowerStr text) k) then
              [⟨Severity.CONTROVERSIAL, "controversial"⟩] else [])
        ++ (if INSULT_KEYWORDS.any (fun k => strIncludes (lowerStr text) k) then
              [⟨Severity.INSULT, "insult"⟩] else []), ?_⟩
    simp [detectTriggers, hany]
  have hp : (prioritize (detectTriggers piiTest text)).kind = Severity.CRISIS := by
    rw [hrest]
    exact prioritize_cons_crisis _ _ rfl
  refine ⟨⟨⟨Severity.CRISIS, "crisis"⟩, by rw [hrest]; exact List.mem_cons_self _ _, rfl⟩,
    hp, ?_⟩
  unfold sendTakesCrisisBranch
  rw [hp]
  decide

/-- Witness for C10: "no point anymore" (tier-2 keyword "no point") with
the PII tests returning false. -/
theorem claim_C10_witness :
    (∃ t ∈ detectTriggers (fun _ => false) "no point anymore",
        t.kind = Severity.CRISIS)
    ∧ (prioritize (detectTriggers (fun _ => false) "no point anymore")).kind
        = Severity.CRISIS
    ∧ sendTakesCrisisBranch (fun _ => false) "no point anymore" = true :=
  claim_C10 (fun _ => false) "no point anymore" "no point" (by decide) (by decide)

/-! ### Spec-modelled orchestrator (claims C5, C6) -/

/-- Claim C5 (spec-modelled orchestrator): on an active session, when the
classifier is consulted and returns a `crisis` verdict, the user message
is recorded with no agent reply appended, the lifecycle transitions to
`CrisisIntervention`, `crisis_detected` becomes true, and the session is
marked ended. -/
theorem claim_C5 (piiTest : String → Bool) (st : OrchestratorState)
    (text reply : String) (verdict : CrisisVerdict)
    (hact : st.lifecycle = Lifecycle.Active)
    (hgate : classifierGate piiTest st text = true)
    (hv : verdict.severity = "crisis") :
    (processTurn piiTest st text verdict reply).1.turns
        = st.turns ++ [⟨Role.user, text, none⟩]
    ∧ (processTurn piiTest st text verdict reply).1.lifecycle
        = Lifecycle.CrisisIntervention
    ∧ (processTurn piiTest st text verdict reply).1.crisisDetected = true
    ∧ (processTurn piiTest st text verdict reply).1.sessionEnded = true := by
  unfold processTurn
  rw [if_neg (by rw [hact]; exact fun h => h rfl)]
  simp only [hgate, hv, Bool.true_and]
  norm_num

/-- Witness for C5: a fresh active session receiving a tier-2 distress
message ("no point anymore") and a crisis verdict. -/
theorem claim_C5_witness :
    (processTurn (fun _ => false) ⟨Lifecycle.Active, [], 0, false, false⟩
        "no point anymore" ⟨"crisis", "personal distress"⟩ "unused").1.turns
      = [⟨Role.user, "no point anymore", none⟩]
    ∧ (processTurn (fun _ => false) ⟨Lifecycle.Active, [], 0, false, false⟩
        "no point anymore" ⟨"crisis", "personal distress"⟩ "unused").1.lifecycle
      = Lifecycle.CrisisIntervention
    ∧ (processTurn (fun _ => false) ⟨Lifecycle.Active, [], 0, false, false⟩
        "no point anymore" ⟨"crisis", "personal distress"⟩ "unused").1.crisisDetected
      = true
    ∧ (processTurn (fun _ => false) ⟨Lifecycle.Active, [], 0, false, false⟩
        "no point anymore" ⟨"crisis", "personal distress"⟩ "unused").1.sessionEnded
      = true := by
  have h := claim_C5 (fun _ => false) ⟨Lifecycle.Active, [], 0, false, false⟩
    "no point anymore" "unused" ⟨"crisis", "personal distress"⟩ rfl (by decide) rfl
  exact h

/-- Claim C6 (spec-modelled orchestrator): the classifier is invoked on
every active-session message whose prioritized severity is `CRISIS` or
in which any distress signal (tier-1 `high` or a tier-2 hit) was
detected. -/
theorem claim_C6 (piiTest : String → Bool) (st : OrchestratorState)
    (text reply : String) (verdict : CrisisVerdict)
    (hact : st.lifecycle = Lifecycle.Active)
    (h : (prioritize (detectTriggers piiTest text)).kind = Severity.CRISIS
      ∨ (analyzeDistress text (st.tier2Count : Int)).severity = DistressSeverity.high
      ∨ (analyzeDistress text (st.tier2Count : Int)).foundTier2 = true) :
    (processTurn piiTest st text verdict reply).2 = true := by
  have hg : classifierGate piiTest st text = true := by
    unfold classifierGate distressSignalDetected
    rcases h with h | h | h <;> simp [h]
  unfold processTurn
  rw [if_neg (by rw [hact]; exact fun hh => hh rfl)]
  simp only [hg]
  split <;> rfl

/-- Witness for C6: same concrete state and message as C5. -/
theorem claim_C6_witness :
    (processTurn (fun _ => false) ⟨Lifecycle.Active, [], 0, false, false⟩
        "no point anymore" ⟨"coaching", "first mention"⟩ "fine").2 = true :=
  claim_C6 (fun _ => false) ⟨Lifecycle.Active, [], 0, false, false⟩
    "no point anymore" "fine" ⟨"coaching", "first mention"⟩ rfl
    (Or.inr (Or.inr (by decide)))

/-! ### Coaching-tip safety bypass (claim C7) -/

/-- Counterexample to C7 as stated: with the cooldown flag set and a PII
trigger, `generateCoachTip` returns no tip at all — the cooldown guard
(`if (cooldown) return undefined`) runs before the safety-tip ladder and
exempts nothing, so safety tips do **not** bypass the cooldown. -/
theorem claim_C7_cex :
    generateCoachTip ⟨"my email is jordan@example.com", [], "PII", true, false⟩
      = none := rfl

/-- Claim C7 as amended: with the cooldown flag clear, a PII,
CONTROVERSIAL or CRISIS trigger kind always yields the corresponding
safety tip, bypassing the 4-tip rate limit and the recent-tip spacing
rule (and the distress pre-filter); but the cooldown flag suppresses
even safety tips, and INSULT is not a safety kind — under the rate limit
an INSULT trigger yields no tip (the ladder has no INSULT tip at all). -/
theorem claim_C7 :
    (∀ context : CoachingContext, context.cooldown = false →
      (context.triggerKind = "PII" → generateCoachTip context = some tipPII)
      ∧ (context.triggerKind = "CONTROVERSIAL" →
          generateCoachTip context = some tipControversial)
      ∧ (context.triggerKind = "CRISIS" →
          generateCoachTip context = some tipCrisisAdjacent))
    ∧ (∀ context : CoachingContext, context.triggerKind = "INSULT" →
        4 ≤ (context.history.filter fun h => h.coachTip.isSome).length →
        generateCoachTip context = none) := by
  constructor
  · intro context hcool
    refine ⟨fun hk => ?_, fun hk => ?_, fun hk => ?_⟩ <;>
      simp [generateCoachTip, coachTipLadder, hcool, hk]
  · intro context hk htips
    rcases hcool : context.cooldown with _ | _
    · simp [generateCoachTip, hcool, hk, htips]
    · simp [generateCoachTip, hcool]

/-- Witness for C7: a PII trigger with five tips already shown and a
cooldown-free context; and an INSULT trigger under the same rate limit. -/
theorem claim_C7_witness :
    generateCoachTip ⟨"my email is jordan@example.com", tipHeavyHistory,
        "PII", false, false⟩ = some tipPII
    ∧ generateCoachTip ⟨"that hobby is weird", tipHeavyHistory,
        "INSULT", false, false⟩ = none :=
  ⟨(claim_C7.1 ⟨"my email is jordan@example.com", tipHeavyHistory,
      "PII", false, false⟩ rfl).1 rfl,
   claim_C7.2 ⟨"that hobby is weird", tipHeavyHistory, "INSULT", false, false⟩
     rfl (by decide)⟩

/-! ### Coaching-tip distress suppression (claim C8) -/

theorem findSome?_ne {α β : Type _} (g : α → Option β) (l : List α) (v : β)
    (h : ∀ a ∈ l, g a ≠ some v) : l.findSome? g ≠ some v := by
  induction l with
  | nil => simp [List.findSome?]
  | cons x xs ih =>
    cases hx : g x with
    | none =>
      rw [List.findSome?_cons, hx]
      exact ih fun a ha => h a (List.mem_cons_of_mem _ ha)
    | some b =>
      rw [List.findSome?_cons, hx]
      intro hc
      exact h x (List.mem_cons_self _ _) (hx.trans hc)

theorem rungSelfIntro_ne (context : CoachingContext) :
    rungSelfIntro context ≠ some tipReciprocity := by
  intro heq
  simp only [rungSelfIntro, checkSelfIntroduction] at heq
  repeat' split at heq
  all_goals exact absurd heq (by decide)

theorem rungDirectQuestion_ne (context : CoachingContext) :
    rungDirectQuestion context ≠ some tipReciprocity := by
  intro heq
  simp only [rungDirectQuestion] at heq
  repeat' split at heq
  all_goals exact absurd heq (by decide)

theorem rungRepeatedGreeting_ne (context : CoachingContext) :
    rungRepeatedGreeting context ≠ some tipReciprocity := by
  intro heq
  simp only [rungRepeatedGreeting] at heq
  repeat' split at heq
  all_goals exact absurd heq (by decide)

theorem rungRepeatedQuestion_ne (context : CoachingContext) :
    rungRepeatedQuestion context ≠ some tipReciprocity := by
  intro heq
  simp only [rungRepeatedQuestion, checkRepeatedQuestion] at heq
  repeat' split at heq
  all_goals exact absurd heq (by decide)

theorem rungActiveListening_ne (context : CoachingContext) :
    rungActiveListening context ≠ some tipReciprocity := by
  intro heq
  simp only [rungActiveListening, checkActiveListening] at heq
  repeat' split at heq
  all_goals exact absurd heq (by decide)

theorem rungBuildOnShare_ne (context : CoachingContext) :
    rungBuildOnShare context ≠ some tipReciprocity := by
  intro heq
  simp only [rungBuildOnShare, checkBuildOnShare] at heq
  repeat' split at heq
  all_goals exact absurd heq (by decide)

theorem rungDeflection_ne (context : CoachingContext) :
    rungDeflection context ≠ some tipReciprocity := by
  intro heq
  simp only [rungDeflection, checkDeflection] at heq
  repeat' split at heq
  all_goals exact absurd heq (by decide)

theorem rungExitCues_ne (context : CoachingContext) :
    rungExitCues context ≠ some tipReciprocity := by
  intro heq
  simp only [rungExitCues, checkExitCues] at heq
  repeat' split at heq
  all_goals exact absurd heq (by decide)

theorem rungStuck_ne (context : CoachingContext) :
    rungStuck context ≠ some tipReciprocity := by
  intro heq
  simp only [rungStuck] at heq
  repeat' split at heq
  all_goals exact absurd heq (by decide)

theorem rungInterview_ne (context : CoachingContext) :
    rungInterview context ≠ some tipReciprocity := by
  intro heq
  simp only [rungInterview] at heq
  repeat' split at heq
  all_goals exact absurd heq (by decide)

theorem rungMilestone3_ne (context : CoachingContext) :
    rungMilestone3 context ≠ some tipReciprocity := by
  intro heq
  simp only [rungMilestone3] at heq
  repeat' split at heq
  all_goals exact absurd heq (by decide)

theorem rungMilestone5_ne (context : CoachingContext) :
    rungMilestone5 context ≠ some tipReciprocity := by
  intro heq
  simp only [rungMilestone5] at heq
  repeat' split at heq
  all_goals exact absurd heq (by decide)

theorem rungMilestone8_ne (context : CoachingContext) :
    rungMilestone8 context ≠ some tipReciprocity := by
  intro heq
  simp only [rungMilestone8] at heq
  repeat' split at heq
  all_goals exact absurd heq (by decide)

theorem rungBrevity_ne (context : CoachingContext) :
    rungBrevity context ≠ some tipReciprocity := by
  intro heq
  simp only [rungBrevity] at heq
  repeat' split at heq
  all_goals exact absurd heq (by decide)

theorem rungLongNoQ_ne (context : CoachingContext) :
    rungLongNoQ context ≠ some tipReciprocity := by
  intro heq
  simp only [rungLongNoQ] at heq
  repeat' split at heq
  all_goals exact absurd heq (by decide)

theorem rungOvershare_ne (context : CoachingContext) :
    rungOvershare context ≠ some tipReciprocity := by
  intro heq
  simp only [rungOvershare] at heq
  repeat' split at heq
  all_goals exact absurd heq (by decide)

theorem rungReciprocity_none (context : CoachingContext)
    (hd : ((sliceLast 3 (userMessagesOf context)).any
        fun m => decide (0 < detectDistressLevel m.content)) = true) :
    rungReciprocity context = none := by
  simp only [rungReciprocity]
  rw [if_neg]
  rintro ⟨-, -, -, h4, -⟩
  rw [hd] at h4
  cases h4

set_option maxRecDepth 4000

/-- Counterexample to C8 as stated: in `distressInLastThreeContext` one
of the last three user messages ("i am so stressed out lately") carries
a distress signal, yet `generateCoachTip` returns the non-safety
milestone tip for a 5-entry history — the engine's pre-filter looks only
at the current message's distress level and at the ≥2-hits descending
trajectory, not at "any of the last 3 user messages"; only the
no-reciprocity rule checks the last three. -/
theorem claim_C8_cex :
    ((sliceLast 3 (userMessagesOf distressInLastThreeContext)).any
        fun m => decide (0 < detectDistressLevel m.content)) = true
    ∧ generateCoachTip distressInLastThreeContext = some tipMilestone5
    ∧ tipMilestone5 ≠ tipPII ∧ tipMilestone5 ≠ tipControversial
    ∧ tipMilestone5 ≠ tipCrisisAdjacent := by
  refine ⟨by decide, by decide, by decide, by decide, by decide⟩

/-- Claim C8 as amended: (1) when the trigger kind is not a safety kind
and either the current message carries a distress signal or the
conversation shows a descending trajectory (≥ 2 distress hits among the
last 5 turns plus the current message), `generateCoachTip` returns no
tip at all; (2) whenever any of the last three user messages (current
included) carries a distress signal, the no-reciprocity flow tip
specifically is never returned, even if its flow condition holds. -/
theorem claim_C8 :
    (∀ context : CoachingContext,
      context.triggerKind ≠ "PII" → context.triggerKind ≠ "CONTROVERSIAL" →
      context.triggerKind ≠ "CRISIS" →
      (0 < detectDistressLevel context.userText
        ∨ hasDescendingTrajectory context.history context.userText = true) →
      generateCoachTip context = none)
    ∧ (∀ context : CoachingContext,
        ((sliceLast 3 (userMessagesOf context)).any
          fun m => decide (0 < detectDistressLevel m.content)) = true →
        generateCoachTip context ≠ some tipReciprocity) := by
  constructor
  · intro context h1 h2 h3 hd
    have hsafe : (context.triggerKind == "PII" || context.triggerKind == "CONTROVERSIAL"
        || context.triggerKind == "CRISIS") = false := by
      simp [h1, h2, h3]
    simp only [generateCoachTip, hsafe]
    split_ifs with g0 g1 g2 g3
    · rfl
    · rfl
    · rfl
    · rfl
    · exact absurd ⟨hd, trivial⟩ g3
  · intro context hd
    simp only [generateCoachTip]
    split_ifs
    · simp
    · simp
    · simp
    · simp
    · simp only [coachTipLadder]
      split_ifs
      · decide
      · decide
      · decide
      · refine findSome?_ne _ _ _ ?_
        intro f hf
        simp only [ladderRungs, List.mem_cons, List.not_mem_nil, or_false] at hf
        rcases hf with rfl | rfl | rfl | rfl | rfl | rfl | rfl | rfl | rfl | rfl
          | rfl | rfl | rfl | rfl | rfl | rfl | rfl
        · exact rungSelfIntro_ne context
        · exact rungDirectQuestion_ne context
        · exact rungRepeatedGreeting_ne context
        · exact rungRepeatedQuestion_ne context
        · exact rungActiveListening_ne context
        · exact rungBuildOnShare_ne context
        · exact rungDeflection_ne context
        · exact rungExitCues_ne context
        · exact rungStuck_ne context
        · exact rungInterview_ne context
        · rw [rungReciprocity_none context hd]
          exact fun h => Option.noConfusion h
        · exact rungMilestone3_ne context
        · exact rungMilestone5_ne context
        · exact rungMilestone8_ne context
        · exact rungBrevity_ne context
        · exact rungLongNoQ_ne context
        · exact rungOvershare_ne context

/-- Witness for C8 (amended): part (1) at a context whose current
message is an explicit distress message with no trigger kind; part (2)
at `distressInLastThreeContext`. -/
theorem claim_C8_witness :
    generateCoachTip ⟨"i really can\x27t keep going", [], "NONE", false, false⟩ = none
    ∧ generateCoachTip distressInLastThreeContext ≠ some tipReciprocity :=
  ⟨claim_C8.1 ⟨"i really can\x27t keep going", [], "NONE", false, false⟩
      (by decide) (by decide) (by decide) (Or.inl (by decide)),
   claim_C8.2 distressInLastThreeContext (by decide)⟩
